import Mathlib

/-! Frame telemetry of the peerconnection client (`GtkMainWnd::VideoRenderer`).

Shallow embedding of the per-frame timing recorder (`LogFrameMetrics`,
`InitializeLogging`) and of the one-second rate estimator (`OnFrame`) of
`examples/peerconnection/client/linux/main_wnd.cc`.

Conventions of the embedding:

* `int64_t` and `size_t` values are mathematical integers (signed 64-bit
  overflow is undefined behaviour in C++ and is not modelled);
* a value stored in a C++ `int` goes through `toInt32`, the two's complement
  narrowing to 32 bits;
* `float` and `double` results are exact rationals (`ℚ`), rounding is not
  modelled;
* the text written to `frame_log_file_` is modelled as the list of values
  streamed between the commas of one row.
-/

namespace NativeWebrtc

/-! ## Machine integers -/

/-- Value of a C++ `int` (32 bits, two's complement) holding the integer `x`. -/
def toInt32 (x : Int) : Int :=
  (x + 2147483648) % 4294967296 - 2147483648

/-! ## Data model -/

/-- Modelled from the spec: `webrtc::VideoFrame::FrameTiming` (declared in
`api/video/video_frame.h`, absent here). The fields are the ones read by
`LogFrameMetrics` and `OnFrame`; per spec §3 the timestamps and durations are
integer milliseconds (64-bit) and `encoded_size` is a byte count (`size_t`). -/
structure FrameTiming where
  first_packet_departure_timestamp : Int
  first_packet_arrival_timestamp : Int
  last_packet_arrival_timestamp : Int
  render_ms : Int
  encode_ms : Int
  pacing_ms : Int
  network_ms : Int
  decode_ms : Int
  frame_construction_delay_ms : Int
  inter_frame_delay_ms : Int
  network_delay_ms : Int
  encoded_size : Nat
deriving DecidableEq, Repr

/-- Modelled from the spec: the part of `webrtc::VideoFrame` (declared in
`api/video/video_frame.h`, absent here) that the telemetry reads:
`rtp_timestamp()` (a `uint32_t` in the 90 kHz media clock), `width()`,
`height()` and `frame_timing()`. -/
structure VideoFrame where
  rtp_timestamp : Nat
  width : Int
  height : Int
  timing : FrameTiming
deriving DecidableEq, Repr

/-- One value streamed into `frame_log_file_`: an integer, or the `double`
`avail_bw` (kept as an exact rational). -/
inductive Cell where
  | int (v : Int)
  | real (q : ℚ)
deriving DecidableEq, Repr

/-- Modelled from the spec: the members of `GtkMainWnd::VideoRenderer` that the
telemetry uses (declared in `linux/main_wnd.h`, absent here). Integer members
are unbounded integers (spec §3: the clock offset is "a single integer"),
`current_fps_` and `current_bitrate_` are exact rationals, and
`frame_log_file_is_open` is `frame_log_file_.is_open()`. -/
structure VideoRenderer where
  start_time_ : Int
  last_frame_time_ : Int
  frame_count_ : Int
  total_bytes_ : Int
  current_fps_ : ℚ
  current_bitrate_ : ℚ
  logging_initialized_ : Bool
  frame_log_file_is_open : Bool
  first_frame_ : Bool
  last_departure_ts_ : Int
  last_arrival_ts_ : Int
  offset_initialized_ : Bool
  rtp_time_offset_ : Int
deriving DecidableEq, Repr

/-- Modelled from the spec: the initial member values of a renderer (the
default member initialisers are in `linux/main_wnd.h`, absent here): nothing
counted, no window opened, no frame seen, not calibrated (spec §3, §4.2). The
two flags say whether `InitializeLogging` managed to open the sink. -/
def VideoRenderer.fresh (logging is_open : Bool) : VideoRenderer :=
  { start_time_ := 0
    last_frame_time_ := 0
    frame_count_ := 0
    total_bytes_ := 0
    current_fps_ := 0
    current_bitrate_ := 0
    logging_initialized_ := logging
    frame_log_file_is_open := is_open
    first_frame_ := true
    last_departure_ts_ := 0
    last_arrival_ts_ := 0
    offset_initialized_ := false
    rtp_time_offset_ := 0 }

/-! ## `InitializeLogging`: the CSV header -/

/-- Column names of the header line written by `InitializeLogging`, in the
order of the string literal (split at the commas). -/
def csvHeader : List String :=
  ["timestamp", "rtp_timestamp", "first_packet_departure",
   "estimated_first_packet_departure", "first_packet_arrival",
   "last_packet_arrival", "render",
   "encode_ms", "pacing_ms", "network_ms", "estimated_network_ms", "decode_ms",
   "frame_construction_delay_ms", "inter_frame_delay_ms",
   "inter_frame_departure_ms", "frame_jitter_ms",
   "encoded_size", "height", "width", "min_rtt", "avail_bw"]

/-- Outcome of `InitializeLogging` when `open_ok` tells whether the file could
be opened: the renderer, and the header line when it is written. -/
def InitializeLogging (s : VideoRenderer) (open_ok : Bool) :
    VideoRenderer × Option (List String) :=
  if s.logging_initialized_ then (s, none)
  else if open_ok then
    ({ s with frame_log_file_is_open := true, logging_initialized_ := true },
     some csvHeader)
  else ({ s with frame_log_file_is_open := false }, none)

/-! ## `LogFrameMetrics` -/

/-- The local `rtp_ms` of `LogFrameMetrics`: `int rtp_ms = rtp_timestamp()/90`. -/
def rtp_ms (frame : VideoFrame) : Int :=
  toInt32 ((frame.rtp_timestamp / 90 : Nat) : Int)

/-- The local `avail_bw` of `LogFrameMetrics`. -/
def avail_bw (timing : FrameTiming) : ℚ :=
  if (timing.frame_construction_delay_ms : ℚ) + 1 / 2 > 0 then
    ((timing.encoded_size : ℚ) * 8 * 1000) /
      (((timing.frame_construction_delay_ms : ℚ) + 1 / 2) * 1000000)
  else 0

/-- The value assigned to `rtp_time_offset_` by the calibration branch of
`LogFrameMetrics`. -/
def calibration_offset (frame : VideoFrame) : Int :=
  frame.timing.first_packet_arrival_timestamp - (frame.timing.network_delay_ms - 5)
    - (rtp_ms frame + frame.timing.encode_ms)

/-- The guard at the head of `LogFrameMetrics` lets the call through. -/
def SinkOpen (s : VideoRenderer) : Prop :=
  s.logging_initialized_ = true ∧ s.frame_log_file_is_open = true

instance (s : VideoRenderer) : Decidable (SinkOpen s) := by
  unfold SinkOpen; infer_instance

/-- Embedding of `GtkMainWnd::VideoRenderer::LogFrameMetrics`. `current_time`
is the value of `rtc::TimeMillis()` read by the call. The result is the
renderer after the call and the row streamed to `frame_log_file_`, if any. -/
def LogFrameMetrics (s : VideoRenderer) (frame : VideoFrame) (current_time : Int) :
    VideoRenderer × Option (List Cell) :=
  if s.logging_initialized_ = false ∨ s.frame_log_file_is_open = false then
    (s, none)
  else
    let timing := frame.timing
    let inter_frame_departure_ms : Int :=
      if s.first_frame_ = false ∧ s.last_departure_ts_ > 0 then
        timing.first_packet_departure_timestamp - s.last_departure_ts_
      else 0
    let frame_jitter_ms : Int :=
      if s.first_frame_ = false ∧ s.last_arrival_ts_ > 0 then
        (timing.last_packet_arrival_timestamp - s.last_arrival_ts_)
          - inter_frame_departure_ms
      else 0
    let calibrate : Bool :=
      decide (s.offset_initialized_ = false ∧ timing.network_delay_ms > 0)
    let rtp_time_offset : Int :=
      if calibrate then calibration_offset frame else s.rtp_time_offset_
    let offset_initialized : Bool := calibrate || s.offset_initialized_
    let s1 : VideoRenderer :=
      { s with
        last_departure_ts_ := timing.first_packet_departure_timestamp
        last_arrival_ts_ := timing.last_packet_arrival_timestamp
        first_frame_ := false
        rtp_time_offset_ := rtp_time_offset
        offset_initialized_ := offset_initialized }
    let estimated_departure : Int :=
      toInt32 (rtp_ms frame + rtp_time_offset + timing.encode_ms)
    let estimated_network_ms : Int :=
      toInt32 (timing.last_packet_arrival_timestamp - estimated_departure)
    (s1,
     if offset_initialized then
      some
        [Cell.int current_time,
         Cell.int frame.rtp_timestamp,
         Cell.int timing.first_packet_departure_timestamp,
         Cell.int estimated_departure,
         Cell.int timing.first_packet_arrival_timestamp,
         Cell.int timing.last_packet_arrival_timestamp,
         Cell.int timing.render_ms,
         Cell.int timing.encode_ms,
         Cell.int timing.pacing_ms,
         Cell.int timing.network_ms,
         Cell.int estimated_network_ms,
         Cell.int timing.decode_ms,
         Cell.int timing.frame_construction_delay_ms,
         Cell.int timing.inter_frame_delay_ms,
         Cell.int inter_frame_departure_ms,
         Cell.int frame_jitter_ms,
         Cell.int timing.encoded_size,
         Cell.int frame.width,
         Cell.int frame.height,
         Cell.int timing.network_delay_ms,
         Cell.real (avail_bw timing)]
     else none)

/-- One delivery to `LogFrameMetrics`: the frame and the clock value read. -/
structure LogCall where
  frame : VideoFrame
  current_time : Int
deriving DecidableEq, Repr

/-- Renderer after delivering the calls in order to `LogFrameMetrics`. -/
def logState (s : VideoRenderer) : List LogCall → VideoRenderer
  | [] => s
  | c :: cs => logState (LogFrameMetrics s c.frame c.current_time).1 cs

/-- What each call of the sequence streamed to the sink, call by call. -/
def logRows (s : VideoRenderer) : List LogCall → List (Option (List Cell))
  | [] => []
  | c :: cs =>
    (LogFrameMetrics s c.frame c.current_time).2
      :: logRows (LogFrameMetrics s c.frame c.current_time).1 cs

/-- The rows written to the sink by the sequence, in order. -/
def emittedRows (s : VideoRenderer) (cs : List LogCall) : List (List Cell) :=
  (logRows s cs).filterMap id

/-- The cell of a row under the header column `name`. -/
def column (name : String) (row : List Cell) : Option Cell :=
  row.get? (csvHeader.indexOf name)

/-! ## `OnFrame`: the one-second rate estimator -/

/-- Value of `last_frame_time_` when `OnFrame` tests the window: the member,
or `current_time` when the member was still `0`. -/
def window_start (s : VideoRenderer) (current_time : Int) : Int :=
  if s.last_frame_time_ = 0 then current_time else s.last_frame_time_

/-- The rate estimator at the head of `OnFrame`, from the read of
`rtc::TimeMillis()` to the status line. The result is the renderer and the
line printed on `std::cout`, if any: elapsed seconds, frame rate, bitrate. -/
def OnFrame_rates (s : VideoRenderer) (video_frame : VideoFrame) (current_time : Int) :
    VideoRenderer × Option (ℚ × ℚ × ℚ) :=
  let start_time : Int := if s.start_time_ = 0 then current_time else s.start_time_
  let last_frame_time : Int := window_start s current_time
  let frame_count : Int := s.frame_count_ + 1
  let frame_size : Nat := video_frame.timing.encoded_size
  let total_bytes : Int := s.total_bytes_ + frame_size
  if current_time - last_frame_time ≥ 1000 then
    let current_fps : ℚ :=
      (frame_count : ℚ) * 1000 / ((current_time - last_frame_time : Int) : ℚ)
    let current_bitrate : ℚ :=
      ((total_bytes : ℚ) * 8 / 1024)
        * (1000 / ((current_time - last_frame_time : Int) : ℚ))
    let elapsed_seconds : ℚ := ((current_time - start_time : Int) : ℚ) / 1000
    ({ s with
        start_time_ := start_time
        current_fps_ := current_fps
        current_bitrate_ := current_bitrate
        frame_count_ := 0
        total_bytes_ := 0
        last_frame_time_ := current_time },
     some (elapsed_seconds, current_fps, current_bitrate))
  else
    ({ s with
        start_time_ := start_time
        last_frame_time_ := last_frame_time
        frame_count_ := frame_count
        total_bytes_ := total_bytes },
     none)

/-- What one `OnFrame` call leaves behind: the renderer, the status line
printed on `std::cout` and the row streamed to the sink. -/
structure OnFrameResult where
  renderer : VideoRenderer
  status_line : Option (ℚ × ℚ × ℚ)
  row : Option (List Cell)

/-- Embedding of `GtkMainWnd::VideoRenderer::OnFrame` without the drawing
part (`headless_`): the rate estimator, then `LogFrameMetrics`.
`current_time` and `log_time` are the two reads of `rtc::TimeMillis()`. -/
def OnFrame (s : VideoRenderer) (video_frame : VideoFrame)
    (current_time log_time : Int) : OnFrameResult :=
  let r := OnFrame_rates s video_frame current_time
  let l := LogFrameMetrics r.1 video_frame log_time
  { renderer := l.1, status_line := r.2, row := l.2 }

/-- One delivery to `OnFrame`: the frame and the two clock values read. -/
structure FrameCall where
  frame : VideoFrame
  current_time : Int
  log_time : Int
deriving DecidableEq, Repr

/-- Renderer after delivering the calls in order to `OnFrame`. -/
def onFrameState (s : VideoRenderer) : List FrameCall → VideoRenderer
  | [] => s
  | c :: cs => onFrameState (OnFrame s c.frame c.current_time c.log_time).renderer cs

/-- The status line of each call of the sequence, call by call. -/
def onFrameLines (s : VideoRenderer) : List FrameCall → List (Option (ℚ × ℚ × ℚ))
  | [] => []
  | c :: cs =>
    (OnFrame s c.frame c.current_time c.log_time).status_line
      :: onFrameLines (OnFrame s c.frame c.current_time c.log_time).renderer cs

/-- Bytes carried by the frames of a sequence of calls. -/
def totalEncodedSize (cs : List FrameCall) : Nat :=
  (cs.map fun c => c.frame.timing.encoded_size).sum

/-! ## Sample deliveries -/

/-- A 640x480 frame of 1200 bytes with the given media timestamp, departure
and arrival timestamps and network delay; the other durations are fixed. -/
def sampleFrame (rtp : Nat) (departure first_arrival last_arrival delay : Int) :
    VideoFrame :=
  { rtp_timestamp := rtp
    width := 640
    height := 480
    timing :=
      { first_packet_departure_timestamp := departure
        first_packet_arrival_timestamp := first_arrival
        last_packet_arrival_timestamp := last_arrival
        render_ms := 2
        encode_ms := 4
        pacing_ms := 1
        network_ms := 20
        decode_ms := 3
        frame_construction_delay_ms := 10
        inter_frame_delay_ms := 33
        network_delay_ms := delay
        encoded_size := 1200 } }

/-- Delivery of a `sampleFrame`, logged one millisecond after its last packet. -/
def sampleCall (rtp : Nat) (departure first_arrival last_arrival delay : Int) :
    LogCall :=
  { frame := sampleFrame rtp departure first_arrival last_arrival delay
    current_time := last_arrival + 1 }

/-- A renderer whose sink is open and that has seen no frame. -/
def openRenderer : VideoRenderer := VideoRenderer.fresh true true

/-- Delivery to `OnFrame`, at time `t`, of a `sampleFrame` resized to `size`
bytes. -/
def rateCall (size : Nat) (t : Int) : FrameCall :=
  { frame :=
      { sampleFrame 9000 100 110 120 30 with
        timing :=
          { (sampleFrame 9000 100 110 120 30).timing with encoded_size := size } }
    current_time := t
    log_time := t }

/-- Twenty-eight deliveries of 1000 bytes, 34 ms apart, after time `t0`. -/
def uniformCalls (t0 : Int) : List FrameCall :=
  (List.range 28).map fun k => rateCall 1000 (t0 + 34 * ((k : Int) + 1))

/-- The timing of a `sampleFrame` with the given size and frame construction
delay. -/
def bwTiming (size : Nat) (construction_delay : Int) : FrameTiming :=
  { (sampleFrame 9000 100 110 120 30).timing with
    encoded_size := size
    frame_construction_delay_ms := construction_delay }

/-! ## Basic facts about `LogFrameMetrics` -/

theorem toInt32_of_range (x : Int) (h1 : -2147483648 ≤ x) (h2 : x < 2147483648) :
    toInt32 x = x := by
  unfold toInt32; omega

theorem rtp_ms_eq (frame : VideoFrame) (h : frame.rtp_timestamp < 4294967296) :
    rtp_ms frame = ((frame.rtp_timestamp / 90 : Nat) : Int) := by
  unfold rtp_ms
  apply toInt32_of_range <;> omega

theorem LogFrameMetrics_sinkOpen (s : VideoRenderer) (frame : VideoFrame) (t : Int)
    (h : SinkOpen s) : SinkOpen (LogFrameMetrics s frame t).1 := by
  obtain ⟨h1, h2⟩ := h
  simp [LogFrameMetrics, SinkOpen, h1, h2]

theorem LogFrameMetrics_offset_initialized (s : VideoRenderer) (frame : VideoFrame)
    (t : Int) (h : SinkOpen s) :
    (LogFrameMetrics s frame t).1.offset_initialized_ =
      (decide (s.offset_initialized_ = false ∧ frame.timing.network_delay_ms > 0)
        || s.offset_initialized_) := by
  obtain ⟨h1, h2⟩ := h
  simp [LogFrameMetrics, h1, h2]

theorem LogFrameMetrics_offset (s : VideoRenderer) (frame : VideoFrame)
    (t : Int) (h : SinkOpen s) :
    (LogFrameMetrics s frame t).1.rtp_time_offset_ =
      if s.offset_initialized_ = false ∧ frame.timing.network_delay_ms > 0 then
        calibration_offset frame
      else s.rtp_time_offset_ := by
  obtain ⟨h1, h2⟩ := h
  simp [LogFrameMetrics, h1, h2]

theorem LogFrameMetrics_rolling (s : VideoRenderer) (frame : VideoFrame)
    (t : Int) (h : SinkOpen s) :
    (LogFrameMetrics s frame t).1.first_frame_ = false ∧
    (LogFrameMetrics s frame t).1.last_departure_ts_
      = frame.timing.first_packet_departure_timestamp ∧
    (LogFrameMetrics s frame t).1.last_arrival_ts_
      = frame.timing.last_packet_arrival_timestamp := by
  obtain ⟨h1, h2⟩ := h
  simp [LogFrameMetrics, h1, h2]

theorem LogFrameMetrics_row_isSome (s : VideoRenderer) (frame : VideoFrame)
    (t : Int) (h : SinkOpen s) :
    (LogFrameMetrics s frame t).2.isSome
      = (LogFrameMetrics s frame t).1.offset_initialized_ := by
  obtain ⟨h1, h2⟩ := h
  simp only [LogFrameMetrics, h1, h2]
  simp only [Bool.true_eq_false, or_self, if_false]
  split <;> simp_all

/-- The rolling columns of a streamed row, in terms of the renderer the call
started from. -/
theorem LogFrameMetrics_rolling_columns (s : VideoRenderer) (frame : VideoFrame)
    (t : Int) (h : SinkOpen s) (row : List Cell)
    (hrow : (LogFrameMetrics s frame t).2 = some row) :
    column "inter_frame_departure_ms" row = some (Cell.int
      (if s.first_frame_ = false ∧ s.last_departure_ts_ > 0 then
        frame.timing.first_packet_departure_timestamp - s.last_departure_ts_
      else 0)) ∧
    column "frame_jitter_ms" row = some (Cell.int
      (if s.first_frame_ = false ∧ s.last_arrival_ts_ > 0 then
        (frame.timing.last_packet_arrival_timestamp - s.last_arrival_ts_)
          - (if s.first_frame_ = false ∧ s.last_departure_ts_ > 0 then
              frame.timing.first_packet_departure_timestamp - s.last_departure_ts_
            else 0)
      else 0)) := by
  obtain ⟨h1, h2⟩ := h
  simp only [LogFrameMetrics, h1, h2, Bool.true_eq_false, or_self, if_false] at hrow
  split at hrow
  · simp only [Option.some.injEq] at hrow
    subst hrow
    exact ⟨rfl, rfl⟩
  · exact absurd hrow (by simp)

/-! ## Sequences of deliveries -/

theorem logState_append (s : VideoRenderer) (as bs : List LogCall) :
    logState s (as ++ bs) = logState (logState s as) bs := by
  induction as generalizing s with
  | nil => rfl
  | cons a as ih => simp [logState, ih]

theorem logState_sinkOpen (s : VideoRenderer) (cs : List LogCall) (h : SinkOpen s) :
    SinkOpen (logState s cs) := by
  induction cs generalizing s with
  | nil => exact h
  | cons c cs ih => exact ih _ (LogFrameMetrics_sinkOpen s c.frame c.current_time h)

theorem logRows_length (s : VideoRenderer) (cs : List LogCall) :
    (logRows s cs).length = cs.length := by
  induction cs generalizing s with
  | nil => rfl
  | cons c cs ih => simp [logRows, ih]

/-- A calibrated renderer stays calibrated and keeps its offset. -/
theorem logState_calibrated (s : VideoRenderer) (cs : List LogCall) (h : SinkOpen s)
    (hc : s.offset_initialized_ = true) :
    (logState s cs).offset_initialized_ = true ∧
      (logState s cs).rtp_time_offset_ = s.rtp_time_offset_ := by
  induction cs generalizing s with
  | nil => exact ⟨hc, rfl⟩
  | cons c cs ih =>
    have hs := LogFrameMetrics_sinkOpen s c.frame c.current_time h
    have h1 := LogFrameMetrics_offset_initialized s c.frame c.current_time h
    have h2 := LogFrameMetrics_offset s c.frame c.current_time h
    have h1' : (LogFrameMetrics s c.frame c.current_time).1.offset_initialized_ = true := by
      rw [h1, hc]; simp
    have h2' : (LogFrameMetrics s c.frame c.current_time).1.rtp_time_offset_
        = s.rtp_time_offset_ := by
      rw [h2, hc]; simp
    obtain ⟨i1, i2⟩ := ih _ hs h1'
    exact ⟨i1, i2.trans h2'⟩

/-- Samples without a network delay leave an uncalibrated renderer as it is. -/
theorem logState_uncalibrated (s : VideoRenderer) (cs : List LogCall) (h : SinkOpen s)
    (hu : s.offset_initialized_ = false)
    (hcs : ∀ d ∈ cs, d.frame.timing.network_delay_ms ≤ 0) :
    (logState s cs).offset_initialized_ = false := by
  induction cs generalizing s with
  | nil => exact hu
  | cons c cs ih =>
    have hs := LogFrameMetrics_sinkOpen s c.frame c.current_time h
    have h1 := LogFrameMetrics_offset_initialized s c.frame c.current_time h
    have hc : ¬ (c.frame.timing.network_delay_ms > 0) := by
      have := hcs c (List.mem_cons_self _ _); omega
    have h1' : (LogFrameMetrics s c.frame c.current_time).1.offset_initialized_ = false := by
      rw [h1, hu]; simp [hc]
    exact ih _ hs h1' (fun d hd => hcs d (List.mem_cons_of_mem _ hd))

theorem LogFrameMetrics_calibrated_iff (s : VideoRenderer) (frame : VideoFrame)
    (t : Int) (h : SinkOpen s) :
    (LogFrameMetrics s frame t).1.offset_initialized_ = true ↔
      (s.offset_initialized_ = true ∨ frame.timing.network_delay_ms > 0) := by
  rw [LogFrameMetrics_offset_initialized s frame t h]
  cases s.offset_initialized_ <;> simp

/-- Which calls of a sequence stream a row. -/
theorem logRows_isSome_iff (s : VideoRenderer) (cs : List LogCall) (h : SinkOpen s)
    (i : Nat) :
    (((logRows s cs)[i]?).bind id).isSome = true ↔
      i < cs.length ∧ (s.offset_initialized_ = true ∨
        ∃ j c, j ≤ i ∧ cs[j]? = some c ∧ c.frame.timing.network_delay_ms > 0) := by
  induction cs generalizing s i with
  | nil => simp [logRows]
  | cons c cs ih =>
    have hs := LogFrameMetrics_sinkOpen s c.frame c.current_time h
    have h1 := LogFrameMetrics_calibrated_iff s c.frame c.current_time h
    have h2 := LogFrameMetrics_row_isSome s c.frame c.current_time h
    cases i with
    | zero =>
      have e : (((logRows s (c :: cs))[0]?).bind id)
          = (LogFrameMetrics s c.frame c.current_time).2 := by
        simp [logRows]
      rw [e, h2, h1]
      constructor
      · rintro (hh | hh)
        · exact ⟨by simp, Or.inl hh⟩
        · exact ⟨by simp, Or.inr ⟨0, c, le_refl _, by simp, hh⟩⟩
      · rintro ⟨-, hh | ⟨j, c', hj, hc', hnd⟩⟩
        · exact Or.inl hh
        · have hj0 : j = 0 := by omega
          subst hj0
          simp only [List.getElem?_cons_zero, Option.some.injEq] at hc'
          subst hc'
          exact Or.inr hnd
    | succ k =>
      have e : (((logRows s (c :: cs))[k + 1]?).bind id)
          = (((logRows (LogFrameMetrics s c.frame c.current_time).1 cs)[k]?).bind id) := by
        simp [logRows]
      rw [e, ih _ hs k, h1]
      constructor
      · rintro ⟨hk, (hh | hh) | ⟨j, c', hj, hc', hnd⟩⟩
        · exact ⟨by simpa using hk, Or.inl hh⟩
        · exact ⟨by simpa using hk, Or.inr ⟨0, c, Nat.zero_le _, by simp, hh⟩⟩
        · exact ⟨by simpa using hk,
            Or.inr ⟨j + 1, c', by omega, by simpa using hc', hnd⟩⟩
      · rintro ⟨hk, hh | ⟨j, c', hj, hc', hnd⟩⟩
        · exact ⟨by simpa using hk, Or.inl (Or.inl hh)⟩
        · refine ⟨by simpa using hk, ?_⟩
          cases j with
          | zero =>
            simp only [List.getElem?_cons_zero, Option.some.injEq] at hc'
            subst hc'
            exact Or.inl (Or.inr hnd)
          | succ j' =>
            exact Or.inr ⟨j', c', by omega, by simpa using hc', hnd⟩

theorem logRows_getElem? (s : VideoRenderer) (cs : List LogCall) (i : Nat) :
    (logRows s cs)[i]? = (cs[i]?).map fun c =>
      (LogFrameMetrics (logState s (cs.take i)) c.frame c.current_time).2 := by
  induction cs generalizing s i with
  | nil => simp [logRows]
  | cons c cs ih =>
    cases i with
    | zero => simp [logRows, logState]
    | succ k => simp [logRows, logState, ih]

theorem logState_take_succ (s : VideoRenderer) (cs : List LogCall) (i : Nat)
    (p : LogCall) (hp : cs[i]? = some p) :
    logState s (cs.take (i + 1))
      = (LogFrameMetrics (logState s (cs.take i)) p.frame p.current_time).1 := by
  rw [List.take_succ, hp, logState_append]
  rfl

/-- The renderer a call finds when it is not the first of the sequence: the
rolling members hold the timestamps of the call before it. -/
theorem logState_after_call (s : VideoRenderer) (cs : List LogCall) (i : Nat)
    (p : LogCall) (h : SinkOpen s) (hp : cs[i]? = some p) :
    SinkOpen (logState s (cs.take (i + 1))) ∧
    (logState s (cs.take (i + 1))).first_frame_ = false ∧
    (logState s (cs.take (i + 1))).last_departure_ts_
      = p.frame.timing.first_packet_departure_timestamp ∧
    (logState s (cs.take (i + 1))).last_arrival_ts_
      = p.frame.timing.last_packet_arrival_timestamp := by
  have hso := logState_sinkOpen s (cs.take i) h
  rw [logState_take_succ s cs i p hp]
  exact ⟨LogFrameMetrics_sinkOpen _ _ _ hso, LogFrameMetrics_rolling _ _ _ hso⟩

/-- The rolling columns of the row of a call that is not the first. -/
theorem logRows_succ_columns (s : VideoRenderer) (cs : List LogCall) (i : Nat)
    (p c : LogCall) (row : List Cell) (h : SinkOpen s)
    (hp : cs[i]? = some p) (hc : cs[i + 1]? = some c)
    (hrow : (logRows s cs)[i + 1]? = some (some row)) :
    column "inter_frame_departure_ms" row = some (Cell.int
      (if p.frame.timing.first_packet_departure_timestamp > 0 then
        c.frame.timing.first_packet_departure_timestamp
          - p.frame.timing.first_packet_departure_timestamp
      else 0)) ∧
    column "frame_jitter_ms" row = some (Cell.int
      (if p.frame.timing.last_packet_arrival_timestamp > 0 then
        (c.frame.timing.last_packet_arrival_timestamp
            - p.frame.timing.last_packet_arrival_timestamp)
          - (if p.frame.timing.first_packet_departure_timestamp > 0 then
              c.frame.timing.first_packet_departure_timestamp
                - p.frame.timing.first_packet_departure_timestamp
            else 0)
      else 0)) := by
  obtain ⟨hso, hf, hd, ha⟩ := logState_after_call s cs i p h hp
  rw [logRows_getElem?, hc] at hrow
  simp only [Option.map_some', Option.some.injEq] at hrow
  have := LogFrameMetrics_rolling_columns _ _ _ hso row hrow
  simpa [hf, hd, ha] using this

/-- The rolling columns of the row of the first call of a renderer that has
seen no frame. -/
theorem logRows_zero_columns (s : VideoRenderer) (cs : List LogCall)
    (row : List Cell) (h : SinkOpen s) (hfirst : s.first_frame_ = true)
    (hrow : (logRows s cs)[0]? = some (some row)) :
    column "inter_frame_departure_ms" row = some (Cell.int 0) ∧
    column "frame_jitter_ms" row = some (Cell.int 0) := by
  rw [logRows_getElem?] at hrow
  cases cs with
  | nil => simp at hrow
  | cons c cs =>
    simp only [List.getElem?_cons_zero, Option.map_some', Option.some.injEq,
      List.take_zero, logState] at hrow
    have := LogFrameMetrics_rolling_columns _ _ _ h row hrow
    simpa [hfirst] using this

/-! ## Calibration -/

/-- C1. Calibration is single-assignment. In a sequence of samples delivered
to `LogFrameMetrics` with the sink open and the renderer not yet calibrated,
let `c` be the first sample with `network_delay_ms > 0` (`pre` comes before
it, `post` after it). While only `pre` has been delivered the renderer is
still uncalibrated, and after the whole sequence it is calibrated and
`rtp_time_offset_` is the value computed from `c`, whatever `post` holds. -/
theorem calibration_single_assignment (s : VideoRenderer) (pre post : List LogCall)
    (c : LogCall) (hopen : SinkOpen s) (hu : s.offset_initialized_ = false)
    (hpre : ∀ d ∈ pre, d.frame.timing.network_delay_ms ≤ 0)
    (hc : c.frame.timing.network_delay_ms > 0) :
    (logState s pre).offset_initialized_ = false ∧
    (logState s (pre ++ c :: post)).offset_initialized_ = true ∧
    (logState s (pre ++ c :: post)).rtp_time_offset_ = calibration_offset c.frame := by
  have hp := logState_uncalibrated s pre hopen hu hpre
  have hso := logState_sinkOpen s pre hopen
  have h1 := LogFrameMetrics_offset_initialized (logState s pre) c.frame c.current_time hso
  have h2 := LogFrameMetrics_offset (logState s pre) c.frame c.current_time hso
  have hs1 := LogFrameMetrics_sinkOpen (logState s pre) c.frame c.current_time hso
  have h1' : (LogFrameMetrics (logState s pre) c.frame c.current_time).1.offset_initialized_
      = true := by
    rw [h1, hp]; simp [hc]
  have h2' : (LogFrameMetrics (logState s pre) c.frame c.current_time).1.rtp_time_offset_
      = calibration_offset c.frame := by
    rw [h2, hp]; simp [hc]
  obtain ⟨k1, k2⟩ := logState_calibrated _ post hs1 h1'
  refine ⟨hp, ?_, ?_⟩
  · rw [logState_append]; exact k1
  · rw [logState_append]; exact k2.trans h2'

/-- Instance of C1: a sample without network delay, then two samples with
different delays; the offset is the one of the first of the two. -/
theorem calibration_single_assignment_witness :
    (logState openRenderer [sampleCall 9000 100 110 120 0]).offset_initialized_ = false ∧
    (logState openRenderer ([sampleCall 9000 100 110 120 0] ++
      sampleCall 12000 133 150 160 30 :: [sampleCall 15000 166 170 180 12])).offset_initialized_
        = true ∧
    (logState openRenderer ([sampleCall 9000 100 110 120 0] ++
      sampleCall 12000 133 150 160 30 :: [sampleCall 15000 166 170 180 12])).rtp_time_offset_
        = calibration_offset (sampleCall 12000 133 150 160 30).frame :=
  calibration_single_assignment openRenderer [sampleCall 9000 100 110 120 0]
    [sampleCall 15000 166 170 180 12] (sampleCall 12000 133 150 160 30)
    (by decide) (by decide) (by decide) (by decide)

/-- C2. When `LogFrameMetrics` calibrates (sink open, renderer not yet
calibrated, `network_delay_ms > 0`), the renderer becomes calibrated and the
stored offset is `first_packet_arrival_timestamp - (network_delay_ms - 5)
- (rtp_timestamp / 90 + encode_ms)`, the division being the floor division of
the 32-bit media timestamp. -/
theorem calibration_offset_formula (s : VideoRenderer) (frame : VideoFrame) (t : Int)
    (hopen : SinkOpen s) (hu : s.offset_initialized_ = false)
    (hnd : frame.timing.network_delay_ms > 0)
    (hrtp : frame.rtp_timestamp < 4294967296) :
    (LogFrameMetrics s frame t).1.offset_initialized_ = true ∧
    (LogFrameMetrics s frame t).1.rtp_time_offset_ =
      frame.timing.first_packet_arrival_timestamp - (frame.timing.network_delay_ms - 5)
        - (((frame.rtp_timestamp / 90 : Nat) : Int) + frame.timing.encode_ms) := by
  constructor
  · rw [LogFrameMetrics_calibrated_iff s frame t hopen]; exact Or.inr hnd
  · rw [LogFrameMetrics_offset s frame t hopen, if_pos ⟨hu, hnd⟩]
    unfold calibration_offset
    rw [rtp_ms_eq frame hrtp]

/-- Instance of C2: media timestamp 12001 (133 ms), first arrival 150, delay
30, encode time 4: the offset is `150 - 25 - 137 = -12`. -/
theorem calibration_offset_formula_witness :
    (LogFrameMetrics openRenderer (sampleFrame 12001 133 150 160 30) 161).1.offset_initialized_
      = true ∧
    (LogFrameMetrics openRenderer (sampleFrame 12001 133 150 160 30) 161).1.rtp_time_offset_
      = (150 : Int) - (30 - 5) - (((12001 / 90 : Nat) : Int) + 4) :=
  calibration_offset_formula openRenderer (sampleFrame 12001 133 150 160 30) 161
    (by decide) (by decide) (by decide) (by decide)

/-! ## Emission -/

/-- C3. For a sequence of samples delivered to `LogFrameMetrics` with the
sink open and the renderer not yet calibrated, every call returns (one
outcome per call), and call `i` streams a row exactly when that sample or an
earlier one of the sequence has `network_delay_ms > 0`. -/
theorem row_emitted_iff_calibrated (s : VideoRenderer) (cs : List LogCall)
    (hopen : SinkOpen s) (hu : s.offset_initialized_ = false) :
    (logRows s cs).length = cs.length ∧
    ∀ i, i < cs.length →
      ((((logRows s cs)[i]?).bind id).isSome = true ↔
        ∃ j c, j ≤ i ∧ cs[j]? = some c ∧ c.frame.timing.network_delay_ms > 0) := by
  refine ⟨logRows_length s cs, fun i hi => ?_⟩
  rw [logRows_isSome_iff s cs hopen i]
  constructor
  · rintro ⟨-, hh | hh⟩
    · rw [hu] at hh; exact absurd hh (by simp)
    · exact hh
  · intro hh
    exact ⟨hi, Or.inr hh⟩

/-- Instance of C3: of three samples with delays 0, 30 and 0, the first
streams nothing and the two others stream a row each. -/
theorem row_emitted_iff_calibrated_witness :
    (logRows openRenderer [sampleCall 9000 100 110 120 0, sampleCall 12000 133 150 160 30,
      sampleCall 15000 166 170 180 0]).length = 3 ∧
    (logRows openRenderer [sampleCall 9000 100 110 120 0, sampleCall 12000 133 150 160 30,
      sampleCall 15000 166 170 180 0]).map Option.isSome = [false, true, true] ∧
    ∀ i, i < 3 →
      ((((logRows openRenderer [sampleCall 9000 100 110 120 0,
          sampleCall 12000 133 150 160 30, sampleCall 15000 166 170 180 0])[i]?).bind id).isSome
          = true ↔
        ∃ j c, j ≤ i ∧ [sampleCall 9000 100 110 120 0, sampleCall 12000 133 150 160 30,
          sampleCall 15000 166 170 180 0][j]? = some c ∧
          c.frame.timing.network_delay_ms > 0) :=
  ⟨(row_emitted_iff_calibrated openRenderer _ (by decide) (by decide)).1, by decide,
   (row_emitted_iff_calibrated openRenderer [sampleCall 9000 100 110 120 0,
      sampleCall 12000 133 150 160 30, sampleCall 15000 166 170 180 0]
      (by decide) (by decide)).2⟩

/-! ## Jitter and inter-frame departure -/

/-- C4, as stated, fails. Two calibrated frames 33 ms apart at departure and
40 ms apart at arrival: the second row carries a jitter of 7, not 0. And when
an uncalibrated frame comes first, the first emitted row itself carries 7. -/
theorem jitter_first_two_rows_counterexample :
    (emittedRows openRenderer [sampleCall 9000 100 110 120 30,
        sampleCall 12000 133 150 160 30]).map (column "frame_jitter_ms")
      = [some (Cell.int 0), some (Cell.int 7)] ∧
    (emittedRows openRenderer [sampleCall 9000 100 110 120 0,
        sampleCall 12000 133 150 160 30]).map (column "frame_jitter_ms")
      = [some (Cell.int 7)] := by
  decide

/-- C4, amended. For a renderer that has seen no frame, with the sink open,
the row of the first frame delivered (if that frame streams one) carries
`frame_jitter_ms = 0`. -/
theorem jitter_first_frame_zero (s : VideoRenderer) (cs : List LogCall)
    (row : List Cell) (hopen : SinkOpen s) (hfirst : s.first_frame_ = true)
    (hrow : (logRows s cs)[0]? = some (some row)) :
    column "frame_jitter_ms" row = some (Cell.int 0) :=
  (logRows_zero_columns s cs row hopen hfirst hrow).2

/-- Instance of the amended C4: the first of two calibrated frames. -/
theorem jitter_first_frame_zero_witness :
    ∃ row, (logRows openRenderer [sampleCall 9000 100 110 120 30,
        sampleCall 12000 133 150 160 30])[0]? = some (some row) ∧
      column "frame_jitter_ms" row = some (Cell.int 0) :=
  ⟨_, rfl, jitter_first_frame_zero openRenderer [sampleCall 9000 100 110 120 30,
      sampleCall 12000 133 150 160 30] _ (by decide) (by decide) rfl⟩

/-- C5, as stated, fails. Three calibrated frames, the second with departure
timestamp 0: the third row carries `200 - 160 = 40`, not
`(200 - 160) - (170 - 0) = -130`. -/
theorem jitter_formula_counterexample :
    ((emittedRows openRenderer [sampleCall 9000 100 110 120 30,
        sampleCall 12000 0 150 160 30, sampleCall 15000 170 190 200 30])[2]?).bind
        (column "frame_jitter_ms") = some (Cell.int 40) ∧
    (40 : Int) ≠ (200 - 160) - (170 - 0) := by
  decide

/-- C5, amended. With the sink open, the row of a frame that is not the first
of the sequence carries, `p` being the frame delivered just before and `c` the
frame itself: `(arrival c - arrival p) - (departure c - departure p)` when
both timestamps of `p` are positive; `arrival c - arrival p` when only the
arrival of `p` is positive; and 0 when the arrival of `p` is not positive. -/
theorem jitter_formula (s : VideoRenderer) (cs : List LogCall) (i : Nat)
    (p c : LogCall) (row : List Cell) (hopen : SinkOpen s)
    (hp : cs[i]? = some p) (hc : cs[i + 1]? = some c)
    (hrow : (logRows s cs)[i + 1]? = some (some row)) :
    (p.frame.timing.last_packet_arrival_timestamp > 0 →
      p.frame.timing.first_packet_departure_timestamp > 0 →
      column "frame_jitter_ms" row = some (Cell.int
        ((c.frame.timing.last_packet_arrival_timestamp
            - p.frame.timing.last_packet_arrival_timestamp)
          - (c.frame.timing.first_packet_departure_timestamp
            - p.frame.timing.first_packet_departure_timestamp)))) ∧
    (p.frame.timing.last_packet_arrival_timestamp > 0 →
      p.frame.timing.first_packet_departure_timestamp ≤ 0 →
      column "frame_jitter_ms" row = some (Cell.int
        (c.frame.timing.last_packet_arrival_timestamp
          - p.frame.timing.last_packet_arrival_timestamp))) ∧
    (p.frame.timing.last_packet_arrival_timestamp ≤ 0 →
      column "frame_jitter_ms" row = some (Cell.int 0)) := by
  have h := (logRows_succ_columns s cs i p c row hopen hp hc hrow).2
  refine ⟨fun ha hd => ?_, fun ha hd => ?_, fun ha => ?_⟩
  · rw [h, if_pos ha, if_pos hd]
  · rw [h, if_pos ha, if_neg (by omega)]; simp
  · rw [h, if_neg (by omega)]

/-- Instance of the amended C5: the third of three calibrated frames with
positive timestamps, `(200 - 160) - (170 - 133) = 3`. -/
theorem jitter_formula_witness :
    ∃ row, (logRows openRenderer [sampleCall 9000 100 110 120 30,
        sampleCall 12000 133 150 160 30, sampleCall 15000 170 190 200 30])[2]?
        = some (some row) ∧
      column "frame_jitter_ms" row = some (Cell.int 3) :=
  ⟨_, rfl, ((jitter_formula openRenderer [sampleCall 9000 100 110 120 30,
      sampleCall 12000 133 150 160 30, sampleCall 15000 170 190 200 30] 1
      (sampleCall 12000 133 150 160 30) (sampleCall 15000 170 190 200 30) _
      (by decide) rfl rfl rfl).1 (by decide) (by decide))⟩

/-- C6, as stated, fails. An uncalibrated frame followed by a calibrated one:
the very first emitted row carries `inter_frame_departure_ms = 150 - 100 = 50`,
not 0. And after a frame with departure timestamp 0 the row carries 0, not the
difference of the departure timestamps. -/
theorem inter_frame_departure_counterexample :
    (emittedRows openRenderer [sampleCall 9000 100 110 120 0,
        sampleCall 12000 150 155 160 30]).map (column "inter_frame_departure_ms")
      = [some (Cell.int 50)] ∧
    (emittedRows openRenderer [sampleCall 9000 0 110 120 30,
        sampleCall 12000 150 155 160 30]).map (column "inter_frame_departure_ms")
      = [some (Cell.int 0), some (Cell.int 0)] := by
  decide

/-- C6, amended. For a renderer that has seen no frame, with the sink open:
the row of the first frame delivered carries `inter_frame_departure_ms = 0`,
and the row of every later frame carries that frame's
`first_packet_departure_timestamp` minus the one of the frame delivered just
before when the latter is positive, and 0 when it is not. -/
theorem inter_frame_departure_formula (s : VideoRenderer) (cs : List LogCall)
    (hopen : SinkOpen s) (hfirst : s.first_frame_ = true) :
    (∀ row, (logRows s cs)[0]? = some (some row) →
      column "inter_frame_departure_ms" row = some (Cell.int 0)) ∧
    (∀ i p c row, cs[i]? = some p → cs[i + 1]? = some c →
      (logRows s cs)[i + 1]? = some (some row) →
      column "inter_frame_departure_ms" row = some (Cell.int
        (if p.frame.timing.first_packet_departure_timestamp > 0 then
          c.frame.timing.first_packet_departure_timestamp
            - p.frame.timing.first_packet_departure_timestamp
        else 0))) :=
  ⟨fun row hrow => (logRows_zero_columns s cs row hopen hfirst hrow).1,
   fun i p c row hp hc hrow => (logRows_succ_columns s cs i p c row hopen hp hc hrow).1⟩

/-- Instance of the amended C6: two calibrated frames with departures 100 and
133; the rows carry 0 and 33. -/
theorem inter_frame_departure_formula_witness :
    (emittedRows openRenderer [sampleCall 9000 100 110 120 30,
        sampleCall 12000 133 150 160 30]).map (column "inter_frame_departure_ms")
      = [some (Cell.int 0), some (Cell.int 33)] ∧
    (∀ row, (logRows openRenderer [sampleCall 9000 100 110 120 30,
        sampleCall 12000 133 150 160 30])[0]? = some (some row) →
      column "inter_frame_departure_ms" row = some (Cell.int 0)) :=
  ⟨by decide, (inter_frame_departure_formula openRenderer [sampleCall 9000 100 110 120 30,
      sampleCall 12000 133 150 160 30] (by decide) (by decide)).1⟩

/-! ## Estimated departure and the row layout -/

/-- C7 on a frame whose arrival timestamps need more than 32 bits
(`first_packet_arrival_timestamp = 1700000000000`): the offset is
`1699999999871` and `rtp_ms + offset + encode_ms = 1699999999975`, but the row
carries `-807049241`, the value left in the 32-bit `estimated_departure`. The
written `estimated_network_ms` is 35, which is the arrival minus the exact
sum, not the arrival minus the written departure. -/
theorem estimated_departure_narrowed :
    (LogFrameMetrics openRenderer
        (sampleFrame 9000 1699999999990 1700000000000 1700000000010 30)
        1700000000011).1.rtp_time_offset_ = 1699999999871 ∧
    ((LogFrameMetrics openRenderer
        (sampleFrame 9000 1699999999990 1700000000000 1700000000010 30)
        1700000000011).2.bind (column "estimated_first_packet_departure"))
      = some (Cell.int (-807049241)) ∧
    ((LogFrameMetrics openRenderer
        (sampleFrame 9000 1699999999990 1700000000000 1700000000010 30)
        1700000000011).2.bind (column "estimated_network_ms"))
      = some (Cell.int 35) ∧
    rtp_ms (sampleFrame 9000 1699999999990 1700000000000 1700000000010 30)
        + 1699999999871 + 4 = (1699999999975 : Int) ∧
    (1700000000010 : Int) - (-807049241) ≠ 35 := by
  decide

/-- C8 on a 640x480 frame: the row has the 21 cells of the header, but the
cell under the header column `height` (the 18th) is the width 640 and the cell
under `width` (the 19th) is the height 480; the 20th cell, under `min_rtt`, is
the sample's `network_delay_ms`. -/
theorem row_height_width_swapped :
    csvHeader.length = 21 ∧
    ((LogFrameMetrics openRenderer (sampleFrame 9000 100 110 120 30) 121).2.map
        List.length) = some 21 ∧
    csvHeader[17]? = some "height" ∧ csvHeader[18]? = some "width" ∧
    csvHeader[19]? = some "min_rtt" ∧
    (sampleFrame 9000 100 110 120 30).width = 640 ∧
    (sampleFrame 9000 100 110 120 30).height = 480 ∧
    ((LogFrameMetrics openRenderer (sampleFrame 9000 100 110 120 30) 121).2.bind
        (column "height")) = some (Cell.int 640) ∧
    ((LogFrameMetrics openRenderer (sampleFrame 9000 100 110 120 30) 121).2.bind
        (column "width")) = some (Cell.int 480) ∧
    ((LogFrameMetrics openRenderer (sampleFrame 9000 100 110 120 30) 121).2.bind
        (column "min_rtt")) = some (Cell.int 30) := by
  decide

/-! ## The rate estimator -/

/-- `LogFrameMetrics` leaves the members of the rate estimator alone. -/
theorem LogFrameMetrics_rates (s : VideoRenderer) (frame : VideoFrame) (t : Int) :
    (LogFrameMetrics s frame t).1.last_frame_time_ = s.last_frame_time_ ∧
    (LogFrameMetrics s frame t).1.frame_count_ = s.frame_count_ ∧
    (LogFrameMetrics s frame t).1.total_bytes_ = s.total_bytes_ ∧
    (LogFrameMetrics s frame t).1.current_fps_ = s.current_fps_ ∧
    (LogFrameMetrics s frame t).1.current_bitrate_ = s.current_bitrate_ := by
  unfold LogFrameMetrics
  split <;> exact ⟨rfl, rfl, rfl, rfl, rfl⟩

/-- A call of `OnFrame` on which the window has elapsed. -/
theorem OnFrame_report (s : VideoRenderer) (vf : VideoFrame) (t lt : Int)
    (h : t - window_start s t ≥ 1000) :
    (OnFrame s vf t lt).status_line.map Prod.snd = some
      (((s.frame_count_ + 1 : Int) : ℚ) * 1000 / ((t - window_start s t : Int) : ℚ),
       (((s.total_bytes_ + (vf.timing.encoded_size : Int) : Int) : ℚ) * 8 / 1024)
          * (1000 / ((t - window_start s t : Int) : ℚ))) ∧
    (OnFrame s vf t lt).renderer.current_fps_ =
      ((s.frame_count_ + 1 : Int) : ℚ) * 1000 / ((t - window_start s t : Int) : ℚ) ∧
    (OnFrame s vf t lt).renderer.current_bitrate_ =
      (((s.total_bytes_ + (vf.timing.encoded_size : Int) : Int) : ℚ) * 8 / 1024)
          * (1000 / ((t - window_start s t : Int) : ℚ)) ∧
    (OnFrame s vf t lt).renderer.frame_count_ = 0 ∧
    (OnFrame s vf t lt).renderer.total_bytes_ = 0 ∧
    (OnFrame s vf t lt).renderer.last_frame_time_ = t := by
  obtain ⟨h1, h2, h3, h4, h5⟩ := LogFrameMetrics_rates (OnFrame_rates s vf t).1 vf lt
  simp only [OnFrame, h1, h2, h3, h4, h5]
  simp only [OnFrame_rates, if_pos h]
  simp

/-- A call of `OnFrame` on which the window has not elapsed. -/
theorem OnFrame_quiet (s : VideoRenderer) (vf : VideoFrame) (t lt : Int)
    (h : ¬ (t - window_start s t ≥ 1000)) :
    (OnFrame s vf t lt).status_line = none ∧
    (OnFrame s vf t lt).renderer.current_fps_ = s.current_fps_ ∧
    (OnFrame s vf t lt).renderer.current_bitrate_ = s.current_bitrate_ ∧
    (OnFrame s vf t lt).renderer.frame_count_ = s.frame_count_ + 1 ∧
    (OnFrame s vf t lt).renderer.total_bytes_ = s.total_bytes_ + vf.timing.encoded_size ∧
    (OnFrame s vf t lt).renderer.last_frame_time_ = window_start s t := by
  obtain ⟨h1, h2, h3, h4, h5⟩ := LogFrameMetrics_rates (OnFrame_rates s vf t).1 vf lt
  simp only [OnFrame, h1, h2, h3, h4, h5]
  simp only [OnFrame_rates, if_neg h]
  simp

/-- C9. The rate estimator never reports a window shorter than 1000 ms. On
the `OnFrame` call that follows any sequence of calls, with `w` the value of
`last_frame_time_` at the test (the member, or the call's own time when the
member was still 0): a status line is printed exactly when
`current_time - w ≥ 1000`; in that case `current_fps_` and `current_bitrate_`
are recomputed from the counters, otherwise both keep their values; and a
call that finds `last_frame_time_ = 0` sets it to its own time. -/
theorem rate_report_iff_window_elapsed (s : VideoRenderer) (pre : List FrameCall)
    (c : FrameCall) :
    ((OnFrame (onFrameState s pre) c.frame c.current_time c.log_time).status_line.isSome
        = true ↔
      c.current_time - window_start (onFrameState s pre) c.current_time ≥ 1000) ∧
    (c.current_time - window_start (onFrameState s pre) c.current_time ≥ 1000 →
      (OnFrame (onFrameState s pre) c.frame c.current_time c.log_time).renderer.current_fps_
        = (((onFrameState s pre).frame_count_ + 1 : Int) : ℚ) * 1000
            / ((c.current_time
                - window_start (onFrameState s pre) c.current_time : Int) : ℚ) ∧
      (OnFrame (onFrameState s pre) c.frame c.current_time c.log_time).renderer.current_bitrate_
        = ((((onFrameState s pre).total_bytes_
              + (c.frame.timing.encoded_size : Int) : Int) : ℚ) * 8 / 1024)
            * (1000 / ((c.current_time
                - window_start (onFrameState s pre) c.current_time : Int) : ℚ))) ∧
    (c.current_time - window_start (onFrameState s pre) c.current_time < 1000 →
      (OnFrame (onFrameState s pre) c.frame c.current_time c.log_time).renderer.current_fps_
        = (onFrameState s pre).current_fps_ ∧
      (OnFrame (onFrameState s pre) c.frame c.current_time c.log_time).renderer.current_bitrate_
        = (onFrameState s pre).current_bitrate_) ∧
    ((onFrameState s pre).last_frame_time_ = 0 →
      window_start (onFrameState s pre) c.current_time = c.current_time ∧
      (OnFrame (onFrameState s pre) c.frame c.current_time c.log_time).status_line = none ∧
      (OnFrame (onFrameState s pre) c.frame c.current_time c.log_time).renderer.last_frame_time_
        = c.current_time) := by
  refine ⟨?_, ?_, ?_, ?_⟩
  · by_cases h : c.current_time - window_start (onFrameState s pre) c.current_time ≥ 1000
    · have := (OnFrame_report _ c.frame c.current_time c.log_time h).1
      cases hl : (OnFrame (onFrameState s pre) c.frame c.current_time c.log_time).status_line with
      | none => rw [hl] at this; simp at this
      | some l => simp [h]
    · have := (OnFrame_quiet _ c.frame c.current_time c.log_time h).1
      simp [this, h]
  · intro h
    have := OnFrame_report _ c.frame c.current_time c.log_time h
    exact ⟨this.2.1, this.2.2.1⟩
  · intro h
    have := OnFrame_quiet (onFrameState s pre) c.frame c.current_time c.log_time (by omega)
    exact ⟨this.2.1, this.2.2.1⟩
  · intro h0
    have hw : window_start (onFrameState s pre) c.current_time = c.current_time := by
      simp [window_start, h0]
    have := OnFrame_quiet (onFrameState s pre) c.frame c.current_time c.log_time
      (by rw [hw]; omega)
    exact ⟨hw, this.1, by rw [this.2.2.2.2.2, hw]⟩

/-- Instance of C9: calls at 5000 and 5500 open the window and stay silent,
the call at 6000 finds `6000 - 5000 ≥ 1000` and reports. -/
theorem rate_report_iff_window_elapsed_witness :
    window_start (onFrameState openRenderer [rateCall 1200 5000, rateCall 1200 5500]) 6000
      = 5000 ∧
    onFrameLines openRenderer [rateCall 1200 5000, rateCall 1200 5500] = [none, none] ∧
    (OnFrame (onFrameState openRenderer [rateCall 1200 5000, rateCall 1200 5500])
      (rateCall 1200 6000).frame 6000 6000).status_line.isSome = true :=
  ⟨by decide, by decide,
   (rate_report_iff_window_elapsed openRenderer [rateCall 1200 5000, rateCall 1200 5500]
      (rateCall 1200 6000)).1.2 (by decide)⟩

theorem OnFrame_status_none_iff (s : VideoRenderer) (vf : VideoFrame) (t lt : Int) :
    (OnFrame s vf t lt).status_line = none ↔ ¬ (t - window_start s t ≥ 1000) := by
  constructor
  · intro hn h
    have := (OnFrame_report s vf t lt h).1
    rw [hn] at this
    simp at this
  · intro h
    exact (OnFrame_quiet s vf t lt h).1

/-- Over calls that print nothing the counters accumulate frames and bytes. -/
theorem onFrameState_quiet_counts (s : VideoRenderer) (cs : List FrameCall)
    (hq : ∀ l ∈ onFrameLines s cs, l = none) :
    (onFrameState s cs).frame_count_ = s.frame_count_ + cs.length ∧
    (onFrameState s cs).total_bytes_ = s.total_bytes_ + totalEncodedSize cs := by
  induction cs generalizing s with
  | nil => simp [onFrameState, totalEncodedSize]
  | cons c cs ih =>
    have hc : (OnFrame s c.frame c.current_time c.log_time).status_line = none :=
      hq _ (by simp [onFrameLines])
    have hquiet := OnFrame_quiet s c.frame c.current_time c.log_time
      ((OnFrame_status_none_iff _ _ _ _).1 hc)
    obtain ⟨i1, i2⟩ := ih (OnFrame s c.frame c.current_time c.log_time).renderer
      (fun l hl => hq l (by simp [onFrameLines, hl]))
    simp only [onFrameState]
    rw [i1, i2, hquiet.2.2.2.1, hquiet.2.2.2.2.1]
    simp only [totalEncodedSize, List.map_cons, List.sum_cons, List.length_cons]
    push_cast
    constructor <;> ring

/-- Calls that all fall inside an open window print nothing and leave the
window start where it is. -/
theorem onFrameState_in_window (s : VideoRenderer) (cs : List FrameCall) (w : Int)
    (hw : s.last_frame_time_ = w) (hw0 : w ≠ 0)
    (hcs : ∀ m ∈ cs, m.current_time - w < 1000) :
    (∀ l ∈ onFrameLines s cs, l = none) ∧ (onFrameState s cs).last_frame_time_ = w := by
  induction cs generalizing s with
  | nil => simp [onFrameLines, onFrameState, hw]
  | cons c cs ih =>
    have hws : window_start s c.current_time = w := by
      simp [window_start, hw, hw0]
    have hlt := hcs c (List.mem_cons_self _ _)
    have hquiet := OnFrame_quiet s c.frame c.current_time c.log_time
      (by rw [hws]; omega)
    obtain ⟨i1, i2⟩ := ih (OnFrame s c.frame c.current_time c.log_time).renderer
      (by rw [hquiet.2.2.2.2.2, hws]) (fun m hm => hcs m (List.mem_cons_of_mem _ hm))
    refine ⟨fun l hl => ?_, i2⟩
    simp only [onFrameLines, List.mem_cons] at hl
    rcases hl with hl | hl
    · rw [hl]; exact hquiet.1
    · exact i1 l hl

theorem totalEncodedSize_const (cs : List FrameCall) (n : Nat)
    (h : ∀ m ∈ cs, m.frame.timing.encoded_size = n) :
    totalEncodedSize cs = n * cs.length := by
  induction cs with
  | nil => simp [totalEncodedSize]
  | cons c cs ih =>
    have hc := h c (List.mem_cons_self _ _)
    have := ih (fun m hm => h m (List.mem_cons_of_mem _ hm))
    simp only [totalEncodedSize, List.map_cons, List.sum_cons, List.length_cons] at this ⊢
    rw [this, hc]; ring

theorem totalEncodedSize_append (as bs : List FrameCall) :
    totalEncodedSize (as ++ bs) = totalEncodedSize as + totalEncodedSize bs := by
  simp [totalEncodedSize]

/-- The values reported at the end of a window that started with zeroed
counters. -/
theorem rate_report_window (s : VideoRenderer) (pre : List FrameCall) (c : FrameCall)
    (h0 : s.frame_count_ = 0) (hb : s.total_bytes_ = 0)
    (hq : ∀ l ∈ onFrameLines s pre, l = none)
    (hrep : c.current_time - window_start (onFrameState s pre) c.current_time ≥ 1000) :
    (OnFrame (onFrameState s pre) c.frame c.current_time c.log_time).status_line.map Prod.snd
      = some
        ((((pre ++ [c]).length : Nat) : ℚ) * 1000
            / ((c.current_time
                - window_start (onFrameState s pre) c.current_time : Int) : ℚ),
         ((totalEncodedSize (pre ++ [c]) : ℚ) * 8 / 1024)
            * (1000 / ((c.current_time
                - window_start (onFrameState s pre) c.current_time : Int) : ℚ))) ∧
    (OnFrame (onFrameState s pre) c.frame c.current_time c.log_time).renderer.current_fps_
      = (((pre ++ [c]).length : Nat) : ℚ) * 1000
            / ((c.current_time
                - window_start (onFrameState s pre) c.current_time : Int) : ℚ) ∧
    (OnFrame (onFrameState s pre) c.frame c.current_time c.log_time).renderer.current_bitrate_
      = ((totalEncodedSize (pre ++ [c]) : ℚ) * 8 / 1024)
            * (1000 / ((c.current_time
                - window_start (onFrameState s pre) c.current_time : Int) : ℚ)) := by
  obtain ⟨k1, k2⟩ := onFrameState_quiet_counts s pre hq
  have hc : totalEncodedSize [c] = c.frame.timing.encoded_size := by
    simp [totalEncodedSize]
  obtain ⟨r1, r2, r3, -⟩ := OnFrame_report _ c.frame c.current_time c.log_time hrep
  rw [r1, r2, r3, k1, k2, h0, hb,
    totalEncodedSize_append, hc, List.length_append, List.length_singleton]
  simp only [zero_add, Int.cast_add, Int.cast_natCast, Int.cast_one, Nat.cast_add,
    Nat.cast_one, and_self]

/-- Thirty frames of 1000 bytes, the first opening the window and the last
arriving 1000 ms later. -/
theorem rate_report_thirty (s : VideoRenderer) (first last : FrameCall)
    (mids : List FrameCall)
    (h0 : s.frame_count_ = 0) (hb : s.total_bytes_ = 0) (hl : s.last_frame_time_ = 0)
    (ht0 : first.current_time ≠ 0) (hm : mids.length = 28)
    (hmt : ∀ m ∈ mids, m.current_time - first.current_time < 1000)
    (hsize : ∀ m ∈ first :: mids ++ [last], m.frame.timing.encoded_size = 1000)
    (hlast : last.current_time = first.current_time + 1000) :
    (∀ l ∈ onFrameLines s (first :: mids), l = none) ∧
    (OnFrame (onFrameState s (first :: mids)) last.frame last.current_time
        last.log_time).status_line.map Prod.snd
      = some ((30 : ℚ), (30 : ℚ) * 1000 * 8 / 1024) ∧
    (OnFrame (onFrameState s (first :: mids)) last.frame last.current_time
        last.log_time).renderer.current_fps_ = 30 ∧
    (OnFrame (onFrameState s (first :: mids)) last.frame last.current_time
        last.log_time).renderer.current_bitrate_ = (30 : ℚ) * 1000 * 8 / 1024 := by
  have hws : window_start s first.current_time = first.current_time := by
    simp [window_start, hl]
  have hfirst := OnFrame_quiet s first.frame first.current_time first.log_time
    (by rw [hws]; omega)
  obtain ⟨q1, q2⟩ := onFrameState_in_window
    (OnFrame s first.frame first.current_time first.log_time).renderer mids
    first.current_time (by rw [hfirst.2.2.2.2.2, hws]) ht0 hmt
  have hq : ∀ l ∈ onFrameLines s (first :: mids), l = none := by
    intro l hl
    simp only [onFrameLines, List.mem_cons] at hl
    rcases hl with hl | hl
    · rw [hl]; exact hfirst.1
    · exact q1 l hl
  have hstart : window_start (onFrameState s (first :: mids)) last.current_time
      = first.current_time := by
    have : (onFrameState s (first :: mids)).last_frame_time_ = first.current_time := q2
    simp [window_start, this, ht0]
  have he : last.current_time
      - window_start (onFrameState s (first :: mids)) last.current_time = 1000 := by
    rw [hstart, hlast]; ring
  have hrep : last.current_time
      - window_start (onFrameState s (first :: mids)) last.current_time ≥ 1000 := by
    rw [he]
  have hlen : ((first :: mids) ++ [last]).length = 30 := by simp [hm]
  have hsum : totalEncodedSize ((first :: mids) ++ [last]) = 1000 * 30 := by
    rw [totalEncodedSize_const _ 1000 hsize, hlen]
  obtain ⟨w1, w2, w3⟩ := rate_report_window s (first :: mids) last h0 hb hq hrep
  rw [he, hlen, hsum] at w1
  rw [he, hlen] at w2
  rw [he, hsum] at w3
  refine ⟨hq, ?_, ?_, ?_⟩
  · rw [w1]; norm_num
  · rw [w2]; norm_num
  · rw [w3]; norm_num

/-- C10. When the rate estimator reports on a call, `pre` being the silent
calls counted since the counters were zeroed, it reports (and stores)
`fps = n * 1000 / e` and `bitrate = (b * 8 / 1024) * (1000 / e)` as exact
rationals, with `n` the number of frames and `b` their bytes, the reporting
frame included, and `e = current_time - window start`. In particular 30
frames of 1000 bytes, the first opening the window at a non-zero time and the
thirtieth arriving exactly 1000 ms later, give `fps = 30` and
`bitrate = 30 * 1000 * 8 / 1024 = 234.375`. -/
theorem rate_report_values :
    (∀ (s : VideoRenderer) (pre : List FrameCall) (c : FrameCall),
      s.frame_count_ = 0 → s.total_bytes_ = 0 →
      (∀ l ∈ onFrameLines s pre, l = none) →
      c.current_time - window_start (onFrameState s pre) c.current_time ≥ 1000 →
      (OnFrame (onFrameState s pre) c.frame c.current_time c.log_time).status_line.map
          Prod.snd
        = some
          ((((pre ++ [c]).length : Nat) : ℚ) * 1000
              / ((c.current_time
                  - window_start (onFrameState s pre) c.current_time : Int) : ℚ),
           ((totalEncodedSize (pre ++ [c]) : ℚ) * 8 / 1024)
              * (1000 / ((c.current_time
                  - window_start (onFrameState s pre) c.current_time : Int) : ℚ))) ∧
      (OnFrame (onFrameState s pre) c.frame c.current_time c.log_time).renderer.current_fps_
        = (((pre ++ [c]).length : Nat) : ℚ) * 1000
              / ((c.current_time
                  - window_start (onFrameState s pre) c.current_time : Int) : ℚ) ∧
      (OnFrame (onFrameState s pre) c.frame c.current_time
          c.log_time).renderer.current_bitrate_
        = ((totalEncodedSize (pre ++ [c]) : ℚ) * 8 / 1024)
              * (1000 / ((c.current_time
                  - window_start (onFrameState s pre) c.current_time : Int) : ℚ))) ∧
    (∀ (s : VideoRenderer) (first last : FrameCall) (mids : List FrameCall),
      s.frame_count_ = 0 → s.total_bytes_ = 0 → s.last_frame_time_ = 0 →
      first.current_time ≠ 0 → mids.length = 28 →
      (∀ m ∈ mids, m.current_time - first.current_time < 1000) →
      (∀ m ∈ first :: mids ++ [last], m.frame.timing.encoded_size = 1000) →
      last.current_time = first.current_time + 1000 →
      (∀ l ∈ onFrameLines s (first :: mids), l = none) ∧
      (OnFrame (onFrameState s (first :: mids)) last.frame last.current_time
          last.log_time).status_line.map Prod.snd
        = some ((30 : ℚ), (30 : ℚ) * 1000 * 8 / 1024) ∧
      (OnFrame (onFrameState s (first :: mids)) last.frame last.current_time
          last.log_time).renderer.current_fps_ = 30 ∧
      (OnFrame (onFrameState s (first :: mids)) last.frame last.current_time
          last.log_time).renderer.current_bitrate_ = (30 : ℚ) * 1000 * 8 / 1024 ∧
      (30 : ℚ) * 1000 * 8 / 1024 = 234.375) :=
  ⟨fun s pre c h0 hb hq hrep => rate_report_window s pre c h0 hb hq hrep,
   fun s first last mids h0 hb hl ht0 hm hmt hsize hlast =>
    have h := rate_report_thirty s first last mids h0 hb hl ht0 hm hmt hsize hlast
    ⟨h.1, h.2.1, h.2.2.1, h.2.2.2, by norm_num⟩⟩

set_option maxRecDepth 8000 in
/-- Instance of C10: thirty frames of 1000 bytes delivered from time 5000 to
time 6000, 34 ms apart (the last gap is 14 ms). -/
theorem rate_report_values_witness :
    (OnFrame (onFrameState openRenderer (rateCall 1000 5000 :: uniformCalls 5000))
        (rateCall 1000 6000).frame 6000 6000).renderer.current_fps_ = 30 ∧
    (OnFrame (onFrameState openRenderer (rateCall 1000 5000 :: uniformCalls 5000))
        (rateCall 1000 6000).frame 6000 6000).renderer.current_bitrate_
      = (30 : ℚ) * 1000 * 8 / 1024 :=
  have h := rate_report_values.2 openRenderer (rateCall 1000 5000) (rateCall 1000 6000)
    (uniformCalls 5000) (by decide) (by decide) (by decide) (by decide) (by decide)
    (by decide) (by decide) (by decide)
  ⟨h.2.2.1, h.2.2.2.1⟩

/-! ## Counters and window start -/

theorem onFrameState_append (s : VideoRenderer) (as bs : List FrameCall) :
    onFrameState s (as ++ bs) = onFrameState (onFrameState s as) bs := by
  induction as generalizing s with
  | nil => rfl
  | cons a as ih => simp [onFrameState, ih]

theorem onFrameState_snoc (s : VideoRenderer) (pre : List FrameCall) (c : FrameCall) :
    onFrameState s (pre ++ [c])
      = (OnFrame (onFrameState s pre) c.frame c.current_time c.log_time).renderer := by
  rw [onFrameState_append]; rfl

/-- C11. On the `OnFrame` call that follows any sequence of calls: if the
call reports (prints the status line), then afterwards `frame_count_` and
`total_bytes_` are 0 and `last_frame_time_` is the call's `current_time`; if
it does not report, then afterwards `frame_count_` is one more and
`total_bytes_` is `encoded_size` more than before, and a window start that was
already set (non-zero) is unchanged. -/
theorem rate_counters_after_call (s : VideoRenderer) (pre : List FrameCall)
    (c : FrameCall) :
    ((OnFrame (onFrameState s pre) c.frame c.current_time c.log_time).status_line.isSome
        = true →
      (onFrameState s (pre ++ [c])).frame_count_ = 0 ∧
      (onFrameState s (pre ++ [c])).total_bytes_ = 0 ∧
      (onFrameState s (pre ++ [c])).last_frame_time_ = c.current_time) ∧
    ((OnFrame (onFrameState s pre) c.frame c.current_time c.log_time).status_line = none →
      (onFrameState s (pre ++ [c])).frame_count_ = (onFrameState s pre).frame_count_ + 1 ∧
      (onFrameState s (pre ++ [c])).total_bytes_
        = (onFrameState s pre).total_bytes_ + c.frame.timing.encoded_size ∧
      ((onFrameState s pre).last_frame_time_ ≠ 0 →
        (onFrameState s (pre ++ [c])).last_frame_time_
          = (onFrameState s pre).last_frame_time_)) := by
  rw [onFrameState_snoc]
  constructor
  · intro hsome
    by_cases h : c.current_time - window_start (onFrameState s pre) c.current_time ≥ 1000
    · have := OnFrame_report (onFrameState s pre) c.frame c.current_time c.log_time h
      exact ⟨this.2.2.2.1, this.2.2.2.2.1, this.2.2.2.2.2⟩
    · have := (OnFrame_quiet (onFrameState s pre) c.frame c.current_time c.log_time h).1
      rw [this] at hsome
      simp at hsome
  · intro hnone
    have h := (OnFrame_status_none_iff _ _ _ _).1 hnone
    have := OnFrame_quiet (onFrameState s pre) c.frame c.current_time c.log_time h
    refine ⟨this.2.2.2.1, this.2.2.2.2.1, fun hset => ?_⟩
    rw [this.2.2.2.2.2]
    simp [window_start, hset]

/-- Instance of C11: after calls at 5000 and 5500 the call at 6000 reports
and leaves zeroed counters and window start 6000; the call at 5500 did not
report and left 2 frames, 2400 bytes and the window start 5000. -/
theorem rate_counters_after_call_witness :
    ((onFrameState openRenderer ([rateCall 1200 5000, rateCall 1200 5500]
        ++ [rateCall 1200 6000])).frame_count_ = 0 ∧
      (onFrameState openRenderer ([rateCall 1200 5000, rateCall 1200 5500]
        ++ [rateCall 1200 6000])).total_bytes_ = 0 ∧
      (onFrameState openRenderer ([rateCall 1200 5000, rateCall 1200 5500]
        ++ [rateCall 1200 6000])).last_frame_time_ = 6000) ∧
    (onFrameState openRenderer ([rateCall 1200 5000] ++ [rateCall 1200 5500])).frame_count_
      = 2 ∧
    (onFrameState openRenderer ([rateCall 1200 5000] ++ [rateCall 1200 5500])).total_bytes_
      = 2400 ∧
    (onFrameState openRenderer ([rateCall 1200 5000] ++ [rateCall 1200 5500])).last_frame_time_
      = 5000 :=
  ⟨(rate_counters_after_call openRenderer [rateCall 1200 5000, rateCall 1200 5500]
      (rateCall 1200 6000)).1 (by decide),
   ((rate_counters_after_call openRenderer [rateCall 1200 5000]
      (rateCall 1200 5500)).2 (by decide)).1,
   ((rate_counters_after_call openRenderer [rateCall 1200 5000]
      (rateCall 1200 5500)).2 (by decide)).2.1,
   ((rate_counters_after_call openRenderer [rateCall 1200 5000]
      (rateCall 1200 5500)).2 (by decide)).2.2 (by decide)⟩

/-- C14. The window start never moves back. On the `OnFrame` call that
follows any sequence of calls, if the call's `current_time` is not negative
then `last_frame_time_` after the call is at least its value before the call,
whatever the order of the clock values. -/
theorem window_start_monotone (s : VideoRenderer) (pre : List FrameCall)
    (c : FrameCall) (ht : 0 ≤ c.current_time) :
    (onFrameState s pre).last_frame_time_
      ≤ (onFrameState s (pre ++ [c])).last_frame_time_ := by
  rw [onFrameState_snoc]
  have hw : (onFrameState s pre).last_frame_time_
      ≤ window_start (onFrameState s pre) c.current_time := by
    unfold window_start
    split
    · next h0 => rw [h0]; exact ht
    · exact le_refl _
  by_cases h : c.current_time - window_start (onFrameState s pre) c.current_time ≥ 1000
  · have := OnFrame_report (onFrameState s pre) c.frame c.current_time c.log_time h
    rw [this.2.2.2.2.2]
    omega
  · have := OnFrame_quiet (onFrameState s pre) c.frame c.current_time c.log_time h
    rw [this.2.2.2.2.2]
    exact hw

/-- Instance of C14: clock values 5000 then 4000 (going back); the window
start goes from 0 to 5000 and stays at 5000. -/
theorem window_start_monotone_witness :
    (onFrameState openRenderer [rateCall 1200 5000]).last_frame_time_ = 5000 ∧
    (onFrameState openRenderer ([rateCall 1200 5000] ++ [rateCall 1200 4000])).last_frame_time_
      = 5000 ∧
    (onFrameState openRenderer [rateCall 1200 5000]).last_frame_time_
      ≤ (onFrameState openRenderer
          ([rateCall 1200 5000] ++ [rateCall 1200 4000])).last_frame_time_ :=
  ⟨by decide, by decide,
   window_start_monotone openRenderer [rateCall 1200 5000] (rateCall 1200 4000)
    (by decide)⟩

/-! ## Available bandwidth and the anchoring frame -/

/-- The computed columns of a streamed row, in terms of the renderer the call
started from. -/
theorem LogFrameMetrics_computed_columns (s : VideoRenderer) (frame : VideoFrame)
    (t : Int) (h : SinkOpen s) (row : List Cell)
    (hrow : (LogFrameMetrics s frame t).2 = some row) :
    column "estimated_first_packet_departure" row = some (Cell.int
      (toInt32 (rtp_ms frame + (LogFrameMetrics s frame t).1.rtp_time_offset_
        + frame.timing.encode_ms))) ∧
    column "estimated_network_ms" row = some (Cell.int
      (toInt32 (frame.timing.last_packet_arrival_timestamp
        - toInt32 (rtp_ms frame + (LogFrameMetrics s frame t).1.rtp_time_offset_
            + frame.timing.encode_ms)))) ∧
    column "avail_bw" row = some (Cell.real (avail_bw frame.timing)) := by
  obtain ⟨h1, h2⟩ := h
  simp only [LogFrameMetrics, h1, h2, Bool.true_eq_false, or_self, if_false] at hrow ⊢
  split at hrow
  · simp only [Option.some.injEq] at hrow
    subst hrow
    exact ⟨rfl, rfl, rfl⟩
  · exact absurd hrow (by simp)

/-- C12. The available bandwidth written on a row is
`encoded_size * 8 * 1000 / ((frame_construction_delay_ms + 0.5) * 1000000)`
when `frame_construction_delay_ms + 0.5 > 0` and 0 otherwise, as exact
rationals. For `frame_construction_delay_ms ≥ 0` the guard holds, the divisor
is at least 500000 and so is not zero, and the quotient is what is written. -/
theorem avail_bw_written (s : VideoRenderer) (frame : VideoFrame) (t : Int)
    (row : List Cell) (hopen : SinkOpen s)
    (hrow : (LogFrameMetrics s frame t).2 = some row) :
    column "avail_bw" row = some (Cell.real
      (if (frame.timing.frame_construction_delay_ms : ℚ) + 1 / 2 > 0 then
        ((frame.timing.encoded_size : ℚ) * 8 * 1000)
          / (((frame.timing.frame_construction_delay_ms : ℚ) + 1 / 2) * 1000000)
      else 0)) ∧
    (frame.timing.frame_construction_delay_ms ≥ 0 →
      (frame.timing.frame_construction_delay_ms : ℚ) + 1 / 2 > 0 ∧
      ((frame.timing.frame_construction_delay_ms : ℚ) + 1 / 2) * 1000000 ≥ 500000 ∧
      ((frame.timing.frame_construction_delay_ms : ℚ) + 1 / 2) * 1000000 ≠ 0 ∧
      column "avail_bw" row = some (Cell.real
        (((frame.timing.encoded_size : ℚ) * 8 * 1000)
          / (((frame.timing.frame_construction_delay_ms : ℚ) + 1 / 2) * 1000000)))) := by
  have hcol := (LogFrameMetrics_computed_columns s frame t hopen row hrow).2.2
  refine ⟨by rw [hcol]; rfl, fun hd => ?_⟩
  have hq : (0 : ℚ) ≤ (frame.timing.frame_construction_delay_ms : ℚ) := by
    exact_mod_cast hd
  have hpos : (frame.timing.frame_construction_delay_ms : ℚ) + 1 / 2 > 0 := by linarith
  refine ⟨hpos, by linarith, by linarith, ?_⟩
  rw [hcol, avail_bw, if_pos hpos]

/-- Instance of C12: 1200 bytes built in 10 ms give
`1200 * 8 * 1000 / (10.5 * 1000000) = 32 / 35` Mbit/s. -/
theorem avail_bw_written_witness :
    ∃ row, (LogFrameMetrics openRenderer (sampleFrame 9000 100 110 120 30) 121).2
        = some row ∧
      column "avail_bw" row = some (Cell.real
        (((1200 : ℚ) * 8 * 1000) / (((10 : ℚ) + 1 / 2) * 1000000))) :=
  ⟨_, rfl, by
    have h := (avail_bw_written openRenderer (sampleFrame 9000 100 110 120 30) 121 _
      (by decide) rfl).2 (by decide)
    simpa [sampleFrame] using h.2.2.2⟩

/-- C13. The available bandwidth computed by `LogFrameMetrics` is 0 when
`frame_construction_delay_ms = 0` and `encoded_size = 0`, and for every fixed
`frame_construction_delay_ms` of the data model (a duration, never negative)
it is strictly increasing in `encoded_size`: `s1 < s2` gives a smaller value
for `s1` than for `s2`. -/
theorem avail_bw_monotone (timing : FrameTiming) (s1 s2 : Nat)
    (hd : timing.frame_construction_delay_ms ≥ 0) :
    (timing.frame_construction_delay_ms = 0 → timing.encoded_size = 0 →
      avail_bw timing = 0) ∧
    (s1 < s2 →
      avail_bw { timing with encoded_size := s1 }
        < avail_bw { timing with encoded_size := s2 }) := by
  refine ⟨fun h0 hs => ?_, fun hlt => ?_⟩
  · simp [avail_bw, h0, hs]
  · have hq : (0 : ℚ) ≤ (timing.frame_construction_delay_ms : ℚ) := by exact_mod_cast hd
    have hpos : (timing.frame_construction_delay_ms : ℚ) + 1 / 2 > 0 := by linarith
    have hden : (0 : ℚ) < ((timing.frame_construction_delay_ms : ℚ) + 1 / 2) * 1000000 := by
      positivity
    have hs : (s1 : ℚ) < (s2 : ℚ) := by exact_mod_cast hlt
    simp only [avail_bw, if_pos hpos]
    apply div_lt_div_of_pos_right _ hden
    linarith

/-- Instance of C13: with a construction delay of 0 ms and no byte the value
is 0, and 1200 bytes give less than 1500 bytes. -/
theorem avail_bw_monotone_witness :
    avail_bw (bwTiming 0 0) = 0 ∧
    avail_bw { bwTiming 0 0 with encoded_size := 1200 }
      < avail_bw { bwTiming 0 0 with encoded_size := 1500 } :=
  ⟨(avail_bw_monotone (bwTiming 0 0) 1200 1500 (by decide)).1 rfl rfl,
   (avail_bw_monotone (bwTiming 0 0) 1200 1500 (by decide)).2 (by decide)⟩

/-- C16. On the frame that calibrates (sink open, renderer not yet
calibrated, `network_delay_ms > 0`) a row is written, its estimated departure
is `first_packet_arrival_timestamp - network_delay_ms + 5` and its
`estimated_network_ms` is `(last_packet_arrival_timestamp -
first_packet_arrival_timestamp) + network_delay_ms - 5`, whatever the frame's
`rtp_timestamp` and `encode_ms`, provided both values fit in a 32-bit `int`. -/
theorem anchor_frame_estimates (s : VideoRenderer) (frame : VideoFrame) (t : Int)
    (hopen : SinkOpen s) (hu : s.offset_initialized_ = false)
    (hnd : frame.timing.network_delay_ms > 0)
    (hd1 : -2147483648 ≤ frame.timing.first_packet_arrival_timestamp
      - frame.timing.network_delay_ms + 5)
    (hd2 : frame.timing.first_packet_arrival_timestamp
      - frame.timing.network_delay_ms + 5 < 2147483648)
    (hn1 : -2147483648 ≤ (frame.timing.last_packet_arrival_timestamp
      - frame.timing.first_packet_arrival_timestamp) + frame.timing.network_delay_ms - 5)
    (hn2 : (frame.timing.last_packet_arrival_timestamp
      - frame.timing.first_packet_arrival_timestamp) + frame.timing.network_delay_ms - 5
        < 2147483648) :
    ∃ row, (LogFrameMetrics s frame t).2 = some row ∧
      column "estimated_first_packet_departure" row = some (Cell.int
        (frame.timing.first_packet_arrival_timestamp
          - frame.timing.network_delay_ms + 5)) ∧
      column "estimated_network_ms" row = some (Cell.int
        ((frame.timing.last_packet_arrival_timestamp
          - frame.timing.first_packet_arrival_timestamp)
            + frame.timing.network_delay_ms - 5)) := by
  have hcal : (LogFrameMetrics s frame t).1.offset_initialized_ = true :=
    (LogFrameMetrics_calibrated_iff s frame t hopen).2 (Or.inr hnd)
  have hsome : (LogFrameMetrics s frame t).2.isSome = true := by
    rw [LogFrameMetrics_row_isSome s frame t hopen, hcal]
  obtain ⟨row, hrow⟩ := Option.isSome_iff_exists.1 hsome
  obtain ⟨c1, c2, -⟩ := LogFrameMetrics_computed_columns s frame t hopen row hrow
  have hoff : (LogFrameMetrics s frame t).1.rtp_time_offset_ = calibration_offset frame := by
    rw [LogFrameMetrics_offset s frame t hopen, if_pos ⟨hu, hnd⟩]
  have hsum : rtp_ms frame + calibration_offset frame + frame.timing.encode_ms
      = frame.timing.first_packet_arrival_timestamp - frame.timing.network_delay_ms + 5 := by
    unfold calibration_offset; ring
  rw [hoff, hsum, toInt32_of_range _ hd1 hd2] at c1 c2
  have hdiff : frame.timing.last_packet_arrival_timestamp
      - (frame.timing.first_packet_arrival_timestamp - frame.timing.network_delay_ms + 5)
      = (frame.timing.last_packet_arrival_timestamp
          - frame.timing.first_packet_arrival_timestamp)
            + frame.timing.network_delay_ms - 5 := by ring
  rw [hdiff, toInt32_of_range _ hn1 hn2] at c2
  exact ⟨row, hrow, c1, c2⟩

/-- Instance of C16: first arrival 150, last arrival 160, delay 30: the
anchoring row carries the departure `150 - 30 + 5 = 125` and the network
estimate `10 + 30 - 5 = 35`, with media timestamp 12001 and encode time 4. -/
theorem anchor_frame_estimates_witness :
    ∃ row, (LogFrameMetrics openRenderer (sampleFrame 12001 133 150 160 30) 161).2
        = some row ∧
      column "estimated_first_packet_departure" row = some (Cell.int 125) ∧
      column "estimated_network_ms" row = some (Cell.int 35) :=
  anchor_frame_estimates openRenderer (sampleFrame 12001 133 150 160 30) 161
    (by decide) (by decide) (by decide) (by decide) (by decide) (by decide) (by decide)

end NativeWebrtc
